import Mathlib

/-!
# Verification of the pyjimeng client core

A shallow embedding of the core of `pyjimeng` (the Jimeng API client used by
`astrbot_plugin_jimeng2api`): the polling state machine (`poller.py`), the
retrying request gateway (`core.py`), the AWS-SigV4-style credential signer
(`aws_signature.py`), the upload pipeline (`images.py`), and the session-token
chooser (`service.py`).

Network effects are modelled by passing the environment's responses in
explicitly; wall-clock time is modelled by attaching to each polling round the
elapsed time the Python code would observe at that round.  Machine integers are
modelled as `Nat` with explicit reduction modulo `2 ^ 32` where the Python code
masks.
-/

namespace PyJimeng

/-! ## `poller.py` — `PollingStatus`, `PollingResult`, `SmartPoller.poll`

Time is rational-valued; each trace entry carries the `PollingStatus` returned
by `poll_fn()` together with the elapsed time `time.time() - start` observed on
that round.  The `poll` loop either returns a `PollingResult`, raises
`JimengPollingTimeout` (modelled by `PollOutcome.timeoutError`), or consumes
the whole trace without deciding (`none`). -/

structure PollingStatus where
  status : Int
  fail_code : Option String
  item_count : Nat
  deriving Repr, DecidableEq

structure PollingResult where
  status : Int
  fail_code : Option String
  item_count : Nat
  elapsed_time : ℚ
  poll_count : Nat
  exit_reason : String
  deriving Repr, DecidableEq

structure PollerConfig where
  max_poll_count : Nat
  poll_interval : ℚ
  stable_rounds : Nat
  timeout_seconds : ℚ
  expected_item_count : Nat
  deriving Repr, DecidableEq

inductive PollOutcome where
  /-- the loop returned a `PollingResult` -/
  | result (r : PollingResult)
  /-- the loop raised `JimengPollingTimeout`; the payload records the elapsed
      time, status and item count interpolated into the error message -/
  | timeoutError (elapsed : ℚ) (status : Int) (item_count : Nat)
  deriving Repr, DecidableEq

namespace SmartPoller

/-- `poller.py` lines 55-62: `_next_interval`. -/
def nextInterval (cfg : PollerConfig) (status : Int) : ℚ :=
  if status = 42 then cfg.poll_interval * (12 / 10)
  else if status = 45 then cfg.poll_interval * (15 / 10)
  else if status = 10 ∨ status = 50 ∨ status = 30 then 0
  else cfg.poll_interval

/-- `poller.py` lines 104-114: the `exit_reason` decision of one round.
`stable` is the stability counter *after* this round's update, `poll_count`
the 1-based number of this round, `elapsed` the observed elapsed time. -/
def exitReason (cfg : PollerConfig) (st : PollingStatus) (stable : Nat)
    (poll_count : Nat) (elapsed : ℚ) : Option String :=
  if st.status = 10 ∨ st.status = 30 ∨ st.status = 50 then
    some (if st.status ≠ 30 then "完成" else "失败")
  else if st.item_count ≥ cfg.expected_item_count then
    some "已获得完整结果"
  else if stable ≥ cfg.stable_rounds ∧ st.item_count > 0 then
    some "结果数量稳定"
  else if poll_count ≥ cfg.max_poll_count then
    some "轮询次数超限"
  else if elapsed ≥ cfg.timeout_seconds ∧ st.item_count > 0 then
    some "时间超限但有结果"
  else
    none

/-- `poller.py` lines 83-134: the body of the `while True` loop.  The state
carried between rounds is `poll_count`, `last_item_count` and the stability
counter `stable` (updated before the exit decision, as in lines 88-92). -/
def pollLoop (cfg : PollerConfig) :
    List (PollingStatus × ℚ) → Nat → Nat → Nat → Option PollOutcome
  | [], _, _, _ => none
  | (st, elapsed) :: rest, poll_count, last_item_count, stable =>
    match exitReason cfg st
        (if st.item_count = last_item_count then stable + 1 else 0)
        (poll_count + 1) elapsed with
    | some reason =>
        some (.result
          { status := st.status
            fail_code := st.fail_code
            item_count := st.item_count
            elapsed_time := elapsed
            poll_count := poll_count + 1
            exit_reason := reason })
    | none =>
        if elapsed ≥ cfg.timeout_seconds then
          some (.timeoutError elapsed st.status st.item_count)
        else
          pollLoop cfg rest (poll_count + 1)
            (if st.item_count = last_item_count then last_item_count else st.item_count)
            (if st.item_count = last_item_count then stable + 1 else 0)

/-- `poller.py` lines 64-134: `SmartPoller.poll`, starting from
`poll_count = 0`, `last_item_count = 0`, `stable_rounds = 0`. -/
def poll (cfg : PollerConfig) (trace : List (PollingStatus × ℚ)) :
    Option PollOutcome :=
  pollLoop cfg trace 0 0 0

end SmartPoller

end PyJimeng

section pollerExamples
open PyJimeng PyJimeng.SmartPoller

-- two in-progress rounds then success
example :
    poll ⟨30, 2, 3, 600, 4⟩
      [(⟨42, none, 0⟩, 1), (⟨42, none, 0⟩, 3), (⟨10, none, 4⟩, 5)]
      = some (.result ⟨10, none, 4, 5, 3, "完成"⟩) := by decide

-- all-zero rounds, timeout reached before the round limit: raises
example :
    poll ⟨30, 2, 3, 4, 4⟩
      [(⟨42, none, 0⟩, 1), (⟨42, none, 0⟩, 5)]
      = some (.timeoutError 5 42 0) := by decide

-- stability exit after stable_rounds + 1 rounds of constant count 2
example :
    poll ⟨30, 2, 3, 600, 4⟩
      [(⟨42, none, 2⟩, 1), (⟨42, none, 2⟩, 2), (⟨42, none, 2⟩, 3), (⟨42, none, 2⟩, 4)]
      = some (.result ⟨42, none, 2, 4, 4, "结果数量稳定"⟩) := by decide

-- round limit reached on the very round that reaches the timeout: returns
example :
    poll ⟨2, 2, 3, 10, 4⟩
      [(⟨42, none, 0⟩, 1), (⟨42, none, 0⟩, 10)]
      = some (.result ⟨42, none, 0, 10, 2, "轮询次数超限"⟩) := by decide

end pollerExamples

namespace PyJimeng
namespace SmartPoller

/-- Helper: the exit decision of `poller.py` lines 104-114 yields no exit
reason when every branch condition fails. -/
theorem exitReason_eq_none (cfg : PollerConfig) (st : PollingStatus)
    (stable pc : Nat) (e : ℚ)
    (h1 : ¬(st.status = 10 ∨ st.status = 30 ∨ st.status = 50))
    (h2 : st.item_count < cfg.expected_item_count)
    (h3 : ¬(stable ≥ cfg.stable_rounds ∧ st.item_count > 0))
    (h4 : pc < cfg.max_poll_count)
    (h5 : ¬(e ≥ cfg.timeout_seconds ∧ st.item_count > 0)) :
    exitReason cfg st stable pc e = none := by
  unfold exitReason
  rw [if_neg h1, if_neg (by omega : ¬st.item_count ≥ cfg.expected_item_count),
    if_neg h3, if_neg (by omega : ¬pc ≥ cfg.max_poll_count), if_neg h5]

/-- Helper: a terminal status (10, 30 or 50) decides the exit reason at once. -/
theorem exitReason_terminal (cfg : PollerConfig) (st : PollingStatus)
    (stable pc : Nat) (e : ℚ)
    (h : st.status = 10 ∨ st.status = 30 ∨ st.status = 50) :
    exitReason cfg st stable pc e =
      some (if st.status ≠ 30 then "完成" else "失败") := by
  unfold exitReason
  rw [if_pos h]

/-- Helper for C1: on a trace whose every round reports zero items and a
non-terminal status, if round `k` (0-based) is the first whose elapsed time
reaches the timeout and the round-count cap is not yet reached there, the
loop raises `JimengPollingTimeout`. -/
theorem pollLoop_allzero_timeout (cfg : PollerConfig)
    (hexp : 0 < cfg.expected_item_count) :
    ∀ (tr : List (PollingStatus × ℚ)) (k pc last stable : Nat)
      (stK : PollingStatus) (eK : ℚ),
      tr[k]? = some (stK, eK) →
      (∀ (i : Nat) (st : PollingStatus) (e : ℚ), tr[i]? = some (st, e) →
        ¬(st.status = 10 ∨ st.status = 30 ∨ st.status = 50) ∧ st.item_count = 0) →
      (∀ (i : Nat) (st : PollingStatus) (e : ℚ), i < k → tr[i]? = some (st, e) → e < cfg.timeout_seconds) →
      cfg.timeout_seconds ≤ eK →
      pc + k + 1 < cfg.max_poll_count →
      pollLoop cfg tr pc last stable = some (.timeoutError eK stK.status 0) := by
  intro tr
  induction tr with
  | nil =>
    intro k pc last stable stK eK hk
    simp at hk
  | cons hd tl ih =>
    intro k pc last stable stK eK hk hall hbefore hat hmax
    obtain ⟨st, e⟩ := hd
    have h0 := hall 0 st e (by simp)
    have hreason : exitReason cfg st
        (if st.item_count = last then stable + 1 else 0) (pc + 1) e = none := by
      refine exitReason_eq_none cfg st _ _ _ h0.1 (by omega) ?_ (by omega) ?_
      · rw [h0.2]; simp
      · rw [h0.2]; simp
    cases k with
    | zero =>
      simp only [List.getElem?_cons_zero, Option.some.injEq, Prod.mk.injEq] at hk
      obtain ⟨hst, he⟩ := hk
      subst hst; subst he
      rw [pollLoop, hreason]
      simp only
      rw [if_pos hat, h0.2]
    | succ k' =>
      have he : e < cfg.timeout_seconds := hbefore 0 st e (by omega) (by simp)
      rw [pollLoop, hreason]
      simp only
      rw [if_neg (by exact not_le.mpr he)]
      refine ih k' (pc + 1) _ _ stK eK (by simpa using hk) ?_ ?_ hat (by omega)
      · intro i sti ei hi
        exact hall (i + 1) sti ei (by simpa using hi)
      · intro i sti ei hik hi
        exact hbefore (i + 1) sti ei (by omega) (by simpa using hi)

end SmartPoller
end PyJimeng

namespace PyJimeng
namespace SmartPoller

/-- C1 (counterexample): the claim "for every all-zero, non-terminal status
sequence, reaching the configured timeout makes `SmartPoller.poll` raise a
polling-timeout error and never return a `PollingResult`" is false as stated:
with `max_poll_count = 2`, `timeout_seconds = 10`, and a trace whose two rounds
both report item_count 0 and non-terminal status 42, the second round reaches
the timeout (elapsed 10 ≥ 10) but the round-limit exit fires first (the code
checks `poll_count >= max_poll_count` before the timeout raise), so `poll`
*returns* a `PollingResult` with exit reason "轮询次数超限". -/
theorem poll_timeout_claim_counterexample :
    poll ⟨2, 2, 3, 10, 4⟩ [(⟨42, none, 0⟩, 1), (⟨42, none, 0⟩, 10)]
      = some (.result ⟨42, none, 0, 10, 2, "轮询次数超限"⟩) ∧
    ([(((⟨42, none, 0⟩ : PollingStatus), (1 : ℚ))), (⟨42, none, 0⟩, 10)].all
      fun r => r.1.item_count == 0 &&
        !(r.1.status == 10 || r.1.status == 30 || r.1.status == 50)) = true ∧
    ((10 : ℚ) ≥ (10 : ℚ)) := by
  refine ⟨by decide, by decide, by norm_num⟩

/-- C1 (amended): for every status sequence in which every fetched round
reports `item_count = 0` and a non-terminal status, if the elapsed time first
reaches the configured timeout on a round at which the configured round limit
has not yet been reached (and the expected item count is positive, as it is
for every caller in the repository), then `SmartPoller.poll` raises
`JimengPollingTimeout` (modelled as `PollOutcome.timeoutError`) and never
returns a `PollingResult`. -/
theorem poll_allzero_timeout_raises (cfg : PollerConfig)
    (tr : List (PollingStatus × ℚ)) (k : Nat) (stK : PollingStatus) (eK : ℚ)
    (hexp : 0 < cfg.expected_item_count)
    (hk : tr[k]? = some (stK, eK))
    (hall : ∀ (i : Nat) (st : PollingStatus) (e : ℚ), tr[i]? = some (st, e) →
      ¬(st.status = 10 ∨ st.status = 30 ∨ st.status = 50) ∧ st.item_count = 0)
    (hbefore : ∀ (i : Nat) (st : PollingStatus) (e : ℚ), i < k →
      tr[i]? = some (st, e) → e < cfg.timeout_seconds)
    (hat : cfg.timeout_seconds ≤ eK)
    (hmax : k + 1 < cfg.max_poll_count) :
    poll cfg tr = some (.timeoutError eK stK.status 0) :=
  pollLoop_allzero_timeout cfg hexp tr k 0 0 0 stK eK hk hall hbefore hat
    (by omega)

/-- C1 witness: a concrete two-round all-zero trace on which the amended
theorem applies and produces the timeout error. -/
theorem poll_allzero_timeout_raises_witness :
    poll ⟨30, 2, 3, 10, 4⟩ [(⟨42, none, 0⟩, 1), (⟨42, none, 0⟩, 10)]
      = some (.timeoutError 10 42 0) := by
  have h := poll_allzero_timeout_raises ⟨30, 2, 3, 10, 4⟩
    [(⟨42, none, 0⟩, 1), (⟨42, none, 0⟩, 10)] 1 ⟨42, none, 0⟩ 10
    (by decide) (by decide)
    (by
      intro i st e hi
      match i, hi with
      | 0, hi =>
        simp only [List.getElem?_cons_zero, Option.some.injEq] at hi
        cases hi
        exact ⟨by decide, by decide⟩
      | 1, hi =>
        simp only [List.getElem?_cons_succ, List.getElem?_cons_zero,
          Option.some.injEq] at hi
        cases hi
        exact ⟨by decide, by decide⟩)
    (by
      intro i st e hik hi
      match i, hik, hi with
      | 0, _, hi =>
        simp only [List.getElem?_cons_zero, Option.some.injEq] at hi
        cases hi
        norm_num)
    (by norm_num) (by decide)
  exact h

end SmartPoller
end PyJimeng

namespace PyJimeng
namespace SmartPoller

/-- Helper: the stability exit fires when the counter has reached the
threshold, at least one item exists, the status is non-terminal and the
expected count is not reached. -/
theorem exitReason_stable (cfg : PollerConfig) (st : PollingStatus)
    (stable pc : Nat) (e : ℚ)
    (h1 : ¬(st.status = 10 ∨ st.status = 30 ∨ st.status = 50))
    (h2 : st.item_count < cfg.expected_item_count)
    (h3 : stable ≥ cfg.stable_rounds) (h4 : 0 < st.item_count) :
    exitReason cfg st stable pc e = some "结果数量稳定" := by
  unfold exitReason
  rw [if_neg h1, if_neg (by omega : ¬st.item_count ≥ cfg.expected_item_count),
    if_pos ⟨h3, h4⟩]

/-- Helper: the stability exit reason is only ever produced with a positive
item count. -/
theorem exitReason_stable_pos (cfg : PollerConfig) (st : PollingStatus)
    (stable pc : Nat) (e : ℚ)
    (h : exitReason cfg st stable pc e = some "结果数量稳定") :
    0 < st.item_count := by
  unfold exitReason at h
  split_ifs at h with h1 h1' h2 h3 h4 h5
  · exact absurd h (by decide)
  · exact absurd h (by decide)
  · exact absurd h (by decide)
  · exact h3.2
  · exact absurd h (by decide)
  · exact absurd h (by decide)

/-- Helper: a non-exiting, non-timed-out round steps the loop to the next
round with the updated state. -/
theorem pollLoop_cons_continue (cfg : PollerConfig) (st : PollingStatus)
    (e : ℚ) (rest : List (PollingStatus × ℚ))
    (pc last stable last' stable' : Nat)
    (hstable : stable' = if st.item_count = last then stable + 1 else 0)
    (hlast : last' = if st.item_count = last then last else st.item_count)
    (hreason : exitReason cfg st stable' (pc + 1) e = none)
    (ht : e < cfg.timeout_seconds) :
    pollLoop cfg ((st, e) :: rest) pc last stable =
      pollLoop cfg rest (pc + 1) last' stable' := by
  subst hstable; subst hlast
  rw [pollLoop, hreason]
  simp only
  rw [if_neg (not_le.mpr ht)]

/-- Helper: a terminal status stops the loop on its round, regardless of the
loop state, and maps 10/50 to "完成" and 30 to "失败" while preserving the
record's fail code in the result. -/
theorem pollLoop_cons_terminal (cfg : PollerConfig) (st : PollingStatus)
    (e : ℚ) (rest : List (PollingStatus × ℚ)) (pc last stable : Nat)
    (h : st.status = 10 ∨ st.status = 30 ∨ st.status = 50) :
    pollLoop cfg ((st, e) :: rest) pc last stable =
      some (.result ⟨st.status, st.fail_code, st.item_count, e, pc + 1,
        if st.status ≠ 30 then "完成" else "失败"⟩) := by
  rw [pollLoop, exitReason_terminal cfg st _ _ _ h]

/-- Helper: any `.result` produced by the loop with the stability exit reason
carries a positive item count. -/
theorem pollLoop_result_stable_pos (cfg : PollerConfig) :
    ∀ (tr : List (PollingStatus × ℚ)) (pc last stable : Nat)
      (r : PollingResult),
      pollLoop cfg tr pc last stable = some (.result r) →
      r.exit_reason = "结果数量稳定" → 0 < r.item_count := by
  intro tr
  induction tr with
  | nil =>
    intro pc last stable r h
    rw [pollLoop] at h
    cases h
  | cons hd tl ih =>
    intro pc last stable r h hr
    obtain ⟨st, e⟩ := hd
    rw [pollLoop] at h
    split at h
    · next reason heq =>
        simp only [Option.some.injEq, PollOutcome.result.injEq] at h
        rw [← h] at hr
        simp only at hr
        rw [hr] at heq
        have := exitReason_stable_pos cfg st _ _ _ heq
        rw [← h]
        simpa using this
    · next heq =>
        split at h
        · simp at h
        · exact ih _ _ _ _ h hr

/-- Helper for C3: from a loop state whose remembered item count is the
constant `c` and whose stability counter is `s`, a run of `j' + 1` further
rounds all reporting `c` items and non-terminal statuses reaches the
stability threshold exactly at the last of those rounds and exits there. -/
theorem pollLoop_stable_climb (cfg : PollerConfig) (c : Nat) (hc : 0 < c)
    (hcexp : c < cfg.expected_item_count) :
    ∀ (j' : Nat) (tr : List (PollingStatus × ℚ)) (pc s : Nat)
      (stL : PollingStatus) (eL : ℚ),
      s + j' + 1 = cfg.stable_rounds →
      tr[j']? = some (stL, eL) →
      (∀ (i : Nat) (st : PollingStatus) (e : ℚ), tr[i]? = some (st, e) →
        ¬(st.status = 10 ∨ st.status = 30 ∨ st.status = 50) ∧
          st.item_count = c) →
      (∀ (i : Nat) (st : PollingStatus) (e : ℚ), i < j' →
        tr[i]? = some (st, e) → e < cfg.timeout_seconds) →
      pc + j' + 1 ≤ cfg.max_poll_count →
      pollLoop cfg tr pc c s =
        some (.result ⟨stL.status, stL.fail_code, c, eL, pc + j' + 1,
          "结果数量稳定"⟩) := by
  intro j'
  induction j' with
  | zero =>
    intro tr pc s stL eL hs hk hall hbefore hmax
    cases tr with
    | nil => simp at hk
    | cons hd tl =>
      obtain ⟨st, e⟩ := hd
      simp only [List.getElem?_cons_zero, Option.some.injEq, Prod.mk.injEq] at hk
      obtain ⟨hst, he⟩ := hk
      subst hst; subst he
      have h0 := hall 0 st e (by simp)
      rw [pollLoop, if_pos h0.2,
        exitReason_stable cfg st (s + 1) (pc + 1) e h0.1
          (by rw [h0.2]; exact hcexp) (by omega) (by rw [h0.2]; exact hc)]
      rw [h0.2]
  | succ j'' ih =>
    intro tr pc s stL eL hs hk hall hbefore hmax
    cases tr with
    | nil => simp at hk
    | cons hd tl =>
      obtain ⟨st, e⟩ := hd
      have h0 := hall 0 st e (by simp)
      have hcont := pollLoop_cons_continue cfg st e tl pc c s c (s + 1)
        (by rw [if_pos h0.2]) (by rw [if_pos h0.2])
        (exitReason_eq_none cfg st (s + 1) (pc + 1) e h0.1 (by omega)
          (by omega) (by omega)
          (fun hx => absurd (hbefore 0 st e (by omega) (by simp))
            (not_lt.mpr hx.1)))
        (hbefore 0 st e (by omega) (by simp))
      rw [hcont]
      have h := ih tl (pc + 1) (s + 1) stL eL (by omega) (by simpa using hk)
        (fun i sti ei hi => hall (i + 1) sti ei (by simpa using hi))
        (fun i sti ei hik hi =>
          hbefore (i + 1) sti ei (by omega) (by simpa using hi))
        (by omega)
      rw [h]
      have : pc + 1 + j'' + 1 = pc + (j'' + 1) + 1 := by omega
      rw [this]

end SmartPoller
end PyJimeng

namespace PyJimeng
namespace SmartPoller

/-- C3: for every status sequence with no terminal status whose reported
item count is the constant positive value `c` on every round (so each round
after the first is a stability round), with `c` below the expected count and
the round limit and timeout not reached first, `SmartPoller.poll` returns a
`PollingResult` whose exit reason is the stability exit "结果数量稳定"
("stable with partial results"), exiting on round `stable_rounds + 1` (the
first round establishes the count, the next `stable_rounds` rounds are the
stability rounds that drive the counter to the threshold); moreover the
stability exit is never taken with `item_count = 0`, on any configuration
and any trace. -/
theorem poll_stable_partial_results (cfg : PollerConfig) (c : Nat)
    (tr : List (PollingStatus × ℚ)) (stL : PollingStatus) (eL : ℚ)
    (hc : 0 < c) (hcexp : c < cfg.expected_item_count)
    (hk : tr[cfg.stable_rounds]? = some (stL, eL))
    (hall : ∀ (i : Nat) (st : PollingStatus) (e : ℚ), tr[i]? = some (st, e) →
      ¬(st.status = 10 ∨ st.status = 30 ∨ st.status = 50) ∧ st.item_count = c)
    (hbefore : ∀ (i : Nat) (st : PollingStatus) (e : ℚ),
      i < cfg.stable_rounds → tr[i]? = some (st, e) → e < cfg.timeout_seconds)
    (hmax : cfg.stable_rounds + 1 ≤ cfg.max_poll_count) :
    poll cfg tr =
      some (.result ⟨stL.status, stL.fail_code, c, eL, cfg.stable_rounds + 1,
        "结果数量稳定"⟩) ∧
    (∀ (cfg' : PollerConfig) (tr' : List (PollingStatus × ℚ))
        (r : PollingResult),
      poll cfg' tr' = some (.result r) → r.exit_reason = "结果数量稳定" →
      0 < r.item_count) := by
  constructor
  · cases tr with
    | nil => simp at hk
    | cons hd tl =>
      obtain ⟨st, e⟩ := hd
      have h0 := hall 0 st e (by simp)
      cases hT : cfg.stable_rounds with
      | zero =>
        rw [hT] at hk
        simp only [List.getElem?_cons_zero, Option.some.injEq,
          Prod.mk.injEq] at hk
        obtain ⟨hst, he⟩ := hk
        subst hst; subst he
        rw [poll, pollLoop,
          if_neg (by omega : ¬st.item_count = 0),
          exitReason_stable cfg st 0 (0 + 1) e h0.1
            (by rw [h0.2]; exact hcexp) (by omega) (by rw [h0.2]; exact hc)]
        simp only
        rw [h0.2]
      | succ T'' =>
        have hcont := pollLoop_cons_continue cfg st e tl 0 0 0 st.item_count 0
          (by rw [if_neg (by omega : ¬st.item_count = 0)])
          (by rw [if_neg (by omega : ¬st.item_count = 0)])
          (exitReason_eq_none cfg st 0 (0 + 1) e h0.1 (by omega)
            (by omega) (by omega)
            (fun hx => absurd (hbefore 0 st e (by omega) (by simp))
              (not_lt.mpr hx.1)))
          (hbefore 0 st e (by omega) (by simp))
        rw [poll, hcont, h0.2]
        have h := pollLoop_stable_climb cfg c hc hcexp T'' tl (0 + 1) 0 stL eL
          (by omega) (by rw [hT] at hk; simpa using hk)
          (fun i sti ei hi => hall (i + 1) sti ei (by simpa using hi))
          (fun i sti ei hik hi =>
            hbefore (i + 1) sti ei (by omega) (by simpa using hi))
          (by omega)
        rw [h]
        have : 0 + 1 + T'' + 1 = T'' + 1 + 1 := by omega
        rw [this]
  · intro cfg' tr' r h hr
    exact pollLoop_result_stable_pos cfg' tr' 0 0 0 r h hr

/-- C3 witness: a concrete constant-count trace (`item_count = 2` on four
rounds, `stable_rounds = 3`) on which the theorem applies and the stability
exit is taken on round 4 with the positive item count 2. -/
theorem poll_stable_partial_results_witness :
    (0 : Nat) < 2 ∧
    poll ⟨30, 2, 3, 600, 4⟩
        [(⟨42, none, 2⟩, 1), (⟨42, none, 2⟩, 2), (⟨42, none, 2⟩, 3),
          (⟨42, none, 2⟩, 4)]
      = some (.result ⟨42, none, 2, 4, 4, "结果数量稳定"⟩) := by
  refine ⟨by decide, ?_⟩
  have h := poll_stable_partial_results ⟨30, 2, 3, 600, 4⟩ 2
    [(⟨42, none, 2⟩, 1), (⟨42, none, 2⟩, 2), (⟨42, none, 2⟩, 3),
      (⟨42, none, 2⟩, 4)] ⟨42, none, 2⟩ 4
    (by decide) (by decide) (by decide)
    (by
      intro i st e hi
      match i, hi with
      | 0, hi =>
        simp only [List.getElem?_cons_zero, Option.some.injEq] at hi
        cases hi; exact ⟨by decide, by decide⟩
      | 1, hi =>
        simp only [List.getElem?_cons_succ, List.getElem?_cons_zero,
          Option.some.injEq] at hi
        cases hi; exact ⟨by decide, by decide⟩
      | 2, hi =>
        simp only [List.getElem?_cons_succ, List.getElem?_cons_zero,
          Option.some.injEq] at hi
        cases hi; exact ⟨by decide, by decide⟩
      | 3, hi =>
        simp only [List.getElem?_cons_succ, List.getElem?_cons_zero,
          Option.some.injEq] at hi
        cases hi; exact ⟨by decide, by decide⟩)
    (by
      intro i st e hik hi
      match i, hik, hi with
      | 0, _, hi =>
        simp only [List.getElem?_cons_zero, Option.some.injEq] at hi
        cases hi; norm_num
      | 1, _, hi =>
        simp only [List.getElem?_cons_succ, List.getElem?_cons_zero,
          Option.some.injEq] at hi
        cases hi; norm_num
      | 2, _, hi =>
        simp only [List.getElem?_cons_succ, List.getElem?_cons_zero,
          Option.some.injEq] at hi
        cases hi; norm_num)
    (by decide)
  exact h.1

/-- C4: as soon as a fetched status is terminal the poller stops on that
round, whatever its internal state: status 10 or 50 ("done"/"confirmed
done") yields exit reason "完成" ("completed"), status 30 yields "失败"
("failed") with the record's fail code preserved in the result.  In
particular, for in-progress → in-progress → success with the item count
reaching the expected count on the success round, `poll` returns the
"完成" exit with `poll_count = 3`. -/
theorem poll_terminal_stops (cfg : PollerConfig) :
    (∀ (st : PollingStatus) (e : ℚ) (rest : List (PollingStatus × ℚ))
        (pc last stable : Nat),
      st.status = 10 ∨ st.status = 30 ∨ st.status = 50 →
      pollLoop cfg ((st, e) :: rest) pc last stable =
        some (.result ⟨st.status, st.fail_code, st.item_count, e, pc + 1,
          if st.status ≠ 30 then "完成" else "失败"⟩)) ∧
    (∀ (e1 e2 e3 : ℚ) (fc : Option String) (n : Nat),
      0 < cfg.expected_item_count → 2 < cfg.max_poll_count →
      e1 < cfg.timeout_seconds → e2 < cfg.timeout_seconds →
      n = cfg.expected_item_count →
      poll cfg [(⟨42, none, 0⟩, e1), (⟨42, none, 0⟩, e2), (⟨10, fc, n⟩, e3)] =
        some (.result ⟨10, fc, n, e3, 3, "完成"⟩)) := by
  constructor
  · intro st e rest pc last stable h
    exact pollLoop_cons_terminal cfg st e rest pc last stable h
  · intro e1 e2 e3 fc n hexp hmax he1 he2 hn
    have hc1 := pollLoop_cons_continue cfg ⟨42, none, 0⟩ e1
      [(⟨42, none, 0⟩, e2), (⟨10, fc, n⟩, e3)] 0 0 0 0 1
      (by norm_num) (by norm_num)
      (exitReason_eq_none cfg ⟨42, none, 0⟩ 1 (0 + 1) e1 (by decide)
        (by simpa using hexp) (by simp) (by omega) (by simp)) he1
    have hc2 := pollLoop_cons_continue cfg ⟨42, none, 0⟩ e2
      [(⟨10, fc, n⟩, e3)] 1 0 1 0 2
      (by norm_num) (by norm_num)
      (exitReason_eq_none cfg ⟨42, none, 0⟩ 2 (1 + 1) e2 (by decide)
        (by simpa using hexp) (by simp) (by omega) (by simp)) he2
    rw [poll, hc1, hc2,
      pollLoop_cons_terminal cfg ⟨10, fc, n⟩ e3 [] 2 0 2 (by left; rfl)]
    rfl

/-- C4 witness: the concrete three-round in-progress → in-progress → success
sequence with the expected count 4 reached on the success round. -/
theorem poll_terminal_stops_witness :
    poll ⟨30, 2, 3, 600, 4⟩
        [(⟨42, none, 0⟩, 1), (⟨42, none, 0⟩, 3), (⟨10, some "x", 4⟩, 5)]
      = some (.result ⟨10, some "x", 4, 5, 3, "完成"⟩) :=
  (poll_terminal_stops ⟨30, 2, 3, 600, 4⟩).2 1 3 5 (some "x") 4
    (by decide) (by decide) (by norm_num) (by norm_num) (by decide)

end SmartPoller
end PyJimeng

namespace PyJimeng

/-! ## `errors.py` and `core.py` — error taxonomy and the retrying gateway

`request` is modelled over an explicit environment `attempts : Nat → Attempt α`
giving the outcome of the `i`-th HTTP attempt (`i = 0` is the initial call,
`i = retries` after `retries` retries).  `JimengErr.api` models
`JimengAPIError(message, status_code)`; `JimengErr.httpStatus` models the
`requests.HTTPError` escaping from `resp.raise_for_status()`.  The
`stream=False` path is modelled (no caller in the repository passes
`stream=True` to the retry-relevant endpoints). -/

inductive JimengErr where
  | api (message : String) (status_code : Option Nat)
  | httpStatus (code : Nat)
  | keyOrIndexError
  deriving Repr, DecidableEq

/-- Discriminator: is this the typed `JimengAPIError`? -/
def JimengErr.isApi : JimengErr → Bool
  | .api _ _ => true
  | _ => false

/-- The JSON envelope of one response, as read by `check_result`
(`core.py` lines 122-136): either the body is not JSON, or it is an object
with no `ret` field (returned whole), or it has a `ret` field (compared as a
string against "0"), a `data` field, and optional `errmsg` / `data.msg`
strings. -/
inductive RespBody (α : Type) where
  | notJson (text : String)
  | noRet (whole : α)
  | withRet (ret : String) (data : α) (errmsg : Option String)
      (dataMsg : Option String)
  deriving Repr, DecidableEq

/-- Outcome of one `SESSION.request` attempt: a network-level
`requests.RequestException`, or a response with an HTTP status code and a
body. -/
inductive Attempt (α : Type) where
  | netExc (message : String)
  | response (status : Nat) (body : RespBody α)
  deriving Repr, DecidableEq

/-- Python string truthiness for `or`-chains over optional strings:
`None` and `""` are falsy. -/
def truthyStr : Option String → Option String
  | some s => if s = "" then none else some s
  | none => none

/-- `a or b or dflt` over optional strings, as in `core.py` line 135. -/
def firstTruthy (a b : Option String) (dflt : String) : String :=
  match truthyStr a with
  | some s => s
  | none =>
    match truthyStr b with
    | some s => s
    | none => dflt

/-- `core.py` lines 122-136: `check_result`. -/
def check_result {α : Type} (status_code : Nat) (body : RespBody α) :
    Except JimengErr α :=
  match body with
  | .notJson text => .error (.api ("非JSON响应: " ++ text.take 200) none)
  | .noRet whole => .ok whole
  | .withRet ret data errmsg dataMsg =>
    if ret = "0" then .ok data
    else .error (.api (firstTruthy errmsg dataMsg "请求失败") (some status_code))

/-- `core.py` lines 184-224: the retry loop of `request` (non-streaming),
with `retries` the current retry counter and `max_retries` the configured
`RETRY_CONFIG["MAX_RETRY_COUNT"]`.  A network exception retries while
`retries < max_retries`, else raises `JimengAPIError(str(exc))` (no status
code); a response with status ≥ 400 retries while `retries < max_retries`,
else `resp.raise_for_status()` raises the HTTP error; otherwise
`raise_for_status` passes and `check_result` unwraps the envelope. -/
def requestGo {α : Type} (attempts : Nat → Attempt α) (max_retries : Nat)
    (retries : Nat) : Except JimengErr α :=
  match attempts retries with
  | .netExc msg =>
    if h : retries < max_retries then
      requestGo attempts max_retries (retries + 1)
    else
      .error (.api msg none)
  | .response status body =>
    if h : 400 ≤ status ∧ retries < max_retries then
      requestGo attempts max_retries (retries + 1)
    else if 400 ≤ status then
      .error (.httpStatus status)
    else
      check_result status body
  termination_by max_retries - retries
  decreasing_by
  · omega
  · omega

/-- `core.py` lines 139-224: `request` (effect-relevant part), starting with
`retries = 0`. -/
def request {α : Type} (attempts : Nat → Attempt α) (max_retries : Nat) :
    Except JimengErr α :=
  requestGo attempts max_retries 0

/-- Helper: when every attempt up to the budget is a network exception, the
loop consumes exactly the retry budget and raises the typed error built from
the *last* attempt's message, with no status code. -/
theorem requestGo_all_net {α : Type} (attempts : Nat → Attempt α)
    (max_retries : Nat) (m : Nat → String) :
    ∀ (d retries : Nat), retries + d = max_retries →
      (∀ i, i ≤ max_retries → attempts i = .netExc (m i)) →
      requestGo attempts max_retries retries =
        .error (.api (m max_retries) none) := by
  intro d
  induction d with
  | zero =>
    intro retries hd hall
    have hr : retries = max_retries := by omega
    subst hr
    rw [requestGo, hall retries le_rfl]
    simp only
    rw [dif_neg (by omega : ¬retries < retries)]
  | succ d ih =>
    intro retries hd hall
    rw [requestGo, hall retries (by omega)]
    simp only
    rw [dif_pos (by omega : retries < max_retries)]
    exact ih (retries + 1) (by omega) hall

/-- Helper: when every attempt up to the budget is a response with HTTP
status ≥ 400, the loop consumes exactly the retry budget and then
`raise_for_status` raises the HTTP error carrying the *last* status. -/
theorem requestGo_all_http {α : Type} (attempts : Nat → Attempt α)
    (max_retries : Nat) (s : Nat → Nat) (b : Nat → RespBody α) :
    ∀ (d retries : Nat), retries + d = max_retries →
      (∀ i, i ≤ max_retries → attempts i = .response (s i) (b i)) →
      (∀ i, i ≤ max_retries → 400 ≤ s i) →
      requestGo attempts max_retries retries =
        .error (.httpStatus (s max_retries)) := by
  intro d
  induction d with
  | zero =>
    intro retries hd hall hs
    have hr : retries = max_retries := by omega
    subst hr
    rw [requestGo, hall retries le_rfl]
    simp only
    rw [dif_neg (fun hx => absurd hx.2 (by omega : ¬retries < retries)),
      if_pos (hs retries le_rfl)]
  | succ d ih =>
    intro retries hd hall hs
    rw [requestGo, hall retries (by omega)]
    simp only
    rw [dif_pos ⟨hs retries (by omega), by omega⟩]
    exact ih (retries + 1) (by omega) hall hs

end PyJimeng

namespace PyJimeng

/-- A fault-injection environment whose every attempt returns HTTP 500. -/
def attempts500 : Nat → Attempt Unit := fun _ => .response 500 (.notJson "err")

/-- C2 (counterexample): the claim "after the retry budget is exhausted a
typed Service error carrying the last HTTP status code is raised" is false
as stated for the HTTP-status branch: with `max_retries = 2` and every
attempt answering HTTP 500, `request` exhausts the budget (three attempts)
and then `resp.raise_for_status()` raises the HTTP library's error, not the
typed `JimengAPIError`. -/
theorem request_typed_error_counterexample :
    request attempts500 2 = .error (.httpStatus 500) ∧
    (JimengErr.httpStatus 500).isApi = false := by
  constructor
  · exact requestGo_all_http attempts500 2 (fun _ => 500)
      (fun _ => .notJson "err") 2 0 (by omega) (fun i _ => rfl)
      (fun i _ => by show (400 : Nat) ≤ 500; omega)
  · rfl

/-- C2 (amended): on injected failures the gateway retries up to exactly the
configured maximum — the surfaced error is built from attempt number
`max_retries`, so `max_retries + 1` attempts are consumed and none beyond,
and with a zero maximum no retry happens at all; after exhaustion, a
network-level exception surfaces as the typed `JimengAPIError` (with no
status code), while an HTTP status ≥ 400 surfaces as the HTTP library's
status error carrying the last status code (not as the typed error). -/
theorem request_retry_budget (max_retries : Nat) :
    (∀ (attempts : Nat → Attempt Unit) (m : Nat → String),
      (∀ i, i ≤ max_retries → attempts i = .netExc (m i)) →
      request attempts max_retries = .error (.api (m max_retries) none)) ∧
    (∀ (attempts : Nat → Attempt Unit) (s : Nat → Nat) (b : Nat → RespBody Unit),
      (∀ i, i ≤ max_retries → attempts i = .response (s i) (b i)) →
      (∀ i, i ≤ max_retries → 400 ≤ s i) →
      request attempts max_retries = .error (.httpStatus (s max_retries))) := by
  constructor
  · intro attempts m hall
    exact requestGo_all_net attempts max_retries m max_retries 0 (by omega)
      hall
  · intro attempts s b hall hs
    exact requestGo_all_http attempts max_retries s b max_retries 0 (by omega)
      hall hs

/-- C2 witness: with `max_retries = 2` and every attempt a network
exception labelled by its attempt number, the surfaced typed error carries
the message of attempt 2 (three attempts, exactly two retries); the same
configuration with zero maximum surfaces attempt 0's message (no retry). -/
theorem request_retry_budget_witness :
    request (fun i => Attempt.netExc (Nat.repr i) (α := Unit)) 2
        = .error (.api "2" none) ∧
    request (fun i => Attempt.netExc (Nat.repr i) (α := Unit)) 0
        = .error (.api "0" none) := by
  constructor
  · exact (request_retry_budget 2).1 (fun i => .netExc (Nat.repr i))
      (fun i => Nat.repr i) (fun i _ => rfl)
  · exact (request_retry_budget 0).1 (fun i => .netExc (Nat.repr i))
      (fun i => Nat.repr i) (fun i _ => rfl)

end PyJimeng

namespace PyJimeng

/-! ## `service.py` — `JimengClient._choose_token`

`random.choice(tokens)` is modelled by an explicit randomness source
`pick : Nat`, selecting index `pick % tokens.length`; the override argument
is `Option (String ⊕ List String)` mirroring `Optional[Union[str,
Sequence[str]]]`, and Python truthiness (`if override:`) treats `None`, `""`
and the empty sequence as absent. -/

/-- Python truthiness of the `override` argument (`service.py` line 60). -/
def overrideTruthy : Option (String ⊕ List String) → Bool
  | none => false
  | some (.inl s) => !(s == "")
  | some (.inr l) => !l.isEmpty

/-- The candidate list `tokens` of `service.py` lines 60-63. -/
def tokensOf (session_ids : List String)
    (override : Option (String ⊕ List String)) : List String :=
  if overrideTruthy override then
    match override with
    | some (.inl s) => [s]
    | some (.inr l) => l
    | none => session_ids
  else
    session_ids

/-- `service.py` lines 59-66: `JimengClient._choose_token`. -/
def _choose_token (session_ids : List String)
    (override : Option (String ⊕ List String)) (pick : Nat) :
    Except JimengErr String :=
  let tokens := tokensOf session_ids override
  if tokens.isEmpty then .error (.api "未提供 session_id" none)
  else .ok (tokens.getD (pick % tokens.length) "")

/-- C9 (counterexample): the claim "the returned token is always a member of
the override set when one is given" is false as stated: an override that is
an *empty* sequence is falsy in Python (`if override:`), so the configured
set is used instead — here the pool token "a" is returned, which is not a
member of the given (empty) override set. -/
theorem choose_token_override_counterexample :
    _choose_token ["a"] (some (.inr [])) 0 = .ok "a" ∧
    ("a" ∈ ([] : List String)) = False := by
  constructor
  · rfl
  · simp

/-- C9 (amended): with no override and an empty configured set the call
fails with the "no session" error (`未提供 session_id`); with exactly one
configured token and no override it always returns that token; and in
general any returned token is a member of the candidate set actually used —
the override set when a truthy (non-empty) override is given, else the
configured set (an empty-sequence or empty-string override is treated as
absent). -/
theorem choose_token_membership :
    (∀ pick : Nat, _choose_token [] none pick =
      .error (.api "未提供 session_id" none)) ∧
    (∀ (t : String) (pick : Nat), _choose_token [t] none pick = .ok t) ∧
    (∀ (session_ids : List String) (override : Option (String ⊕ List String))
        (pick : Nat) (tok : String),
      _choose_token session_ids override pick = .ok tok →
      tok ∈ tokensOf session_ids override) := by
  refine ⟨fun pick => rfl, ?_, ?_⟩
  · intro t pick
    simp [_choose_token, tokensOf, overrideTruthy, Nat.mod_one]
  intro session_ids override pick tok h
  unfold _choose_token at h
  by_cases he : (tokensOf session_ids override).isEmpty
  · rw [if_pos he] at h
    cases h
  · rw [if_neg he] at h
    have hlen : 0 < (tokensOf session_ids override).length := by
      cases hl : tokensOf session_ids override with
      | nil => rw [hl] at he; simp at he
      | cons a l => simp
    have hlt : pick % (tokensOf session_ids override).length
        < (tokensOf session_ids override).length := Nat.mod_lt _ hlen
    have : (tokensOf session_ids override).getD
        (pick % (tokensOf session_ids override).length) "" ∈
        tokensOf session_ids override := by
      rw [List.getD_eq_getElem _ _ hlt]
      exact List.getElem_mem hlt
    simp only [Except.ok.injEq] at h
    rw [← h]
    exact this

/-- C9 witness: concrete instances — empty pool errors, a singleton pool
always returns its token (two different picks), and a returned token from a
truthy override is a member of that override set. -/
theorem choose_token_membership_witness :
    _choose_token [] none 7 = .error (.api "未提供 session_id" none) ∧
    _choose_token ["tok"] none 0 = .ok "tok" ∧
    _choose_token ["tok"] none 5 = .ok "tok" ∧
    ("u1" ∈ tokensOf ["a"] (some (.inr ["u1", "u2"]))) := by
  refine ⟨(choose_token_membership).1 7, (choose_token_membership).2.1 "tok" 0,
    (choose_token_membership).2.1 "tok" 5,
    (choose_token_membership).2.2 ["a"] (some (.inr ["u1", "u2"])) 0 "u1" rfl⟩

end PyJimeng

namespace PyJimeng

/-! ## Byte-level primitives: UTF-8, hex, SHA-256, HMAC-SHA256, CRC-32

Bytes are `Nat` values below 256; words are `Nat` values masked to 32 bits.
These model `str.encode("utf-8")`, `hashlib.sha256(...).hexdigest()`,
`hmac.new(..., hashlib.sha256).digest()` and `binascii.crc32`. -/

/-- Reduce modulo `2 ^ 32`. -/
def mask32 (n : Nat) : Nat := n % 2 ^ 32

/-- UTF-8 encoding of one Unicode code point. -/
def utf8Char (c : Nat) : List Nat :=
  if c < 0x80 then [c]
  else if c < 0x800 then
    [0xC0 ||| (c >>> 6), 0x80 ||| (c &&& 0x3F)]
  else if c < 0x10000 then
    [0xE0 ||| (c >>> 12), 0x80 ||| ((c >>> 6) &&& 0x3F), 0x80 ||| (c &&& 0x3F)]
  else
    [0xF0 ||| (c >>> 18), 0x80 ||| ((c >>> 12) &&& 0x3F),
      0x80 ||| ((c >>> 6) &&& 0x3F), 0x80 ||| (c &&& 0x3F)]

/-- UTF-8 bytes of a string, i.e. `s.encode("utf-8")`. -/
def utf8 (s : String) : List Nat :=
  (s.data.map (fun c => utf8Char c.toNat)).flatten

/-- One lowercase hexadecimal digit character. -/
def hexChar (n : Nat) : Char :=
  if n < 10 then Char.ofNat (48 + n) else Char.ofNat (87 + n)

/-- Hex digits of `n`, most significant first (fuel-structural so the kernel
can evaluate it; the fuel `n + 1` always suffices). -/
def hexDigitsAux : Nat → Nat → List Char
  | 0, _ => []
  | fuel + 1, n =>
    if n < 16 then [hexChar n]
    else hexDigitsAux fuel (n / 16) ++ [hexChar (n % 16)]

/-- Hex digits of `n`, without leading zeroes (`"%x" % n`). -/
def hexDigits (n : Nat) : List Char := hexDigitsAux (n + 1) n

/-- `"%08x" % n` (lowercase, zero-padded to 8 digits). -/
def hexPad8 (n : Nat) : String :=
  ⟨List.replicate (8 - (hexDigits n).length) '0' ++ hexDigits n⟩

/-- Lowercase hex string of a byte list (`bytes.hex()` / `.hexdigest()`). -/
def bytesToHex (bs : List Nat) : String :=
  ⟨(bs.map (fun b => [hexChar ((b >>> 4) &&& 0xF), hexChar (b &&& 0xF)])).flatten⟩

/-- 32-bit right rotation. -/
def rotr32 (x n : Nat) : Nat := mask32 ((x >>> n) ||| (x <<< (32 - n)))

/-- The 64 SHA-256 round constants, packed most-significant-word-first into
a single integer (word `i` is bits `32 * (63 - i)` and up). -/
def sha256KPacked : Nat := 0x428a2f9871374491b5c0fbcfe9b5dba53956c25b59f111f1923f82a4ab1c5ed5d807aa9812835b01243185be550c7dc372be5d7480deb1fe9bdc06a7c19bf174e49b69c1efbe47860fc19dc6240ca1cc2de92c6f4a7484aa5cb0a9dc76f988da983e5152a831c66db00327c8bf597fc7c6e00bf3d5a7914706ca63511429296727b70a852e1b21384d2c6dfc53380d13650a7354766a0abb81c2c92e92722c85a2bfe8a1a81a664bc24b8b70c76c51a3d192e819d6990624f40e3585106aa07019a4c1161e376c082748774c34b0bcb5391c0cb34ed8aa4a5b9cca4f682e6ff3748f82ee78a5636f84c878148cc7020890befffaa4506cebbef9a3f7c67178f2

/-- The 64 SHA-256 round constants. -/
def sha256K : List Nat :=
  (List.range 64).map fun i => (sha256KPacked >>> (32 * (63 - i))) &&& 0xFFFFFFFF

/-- The SHA-256 initial hash state, packed most-significant-word-first. -/
def sha256HPacked : Nat := 0x6a09e667bb67ae853c6ef372a54ff53a510e527f9b05688c1f83d9ab5be0cd19

/-- The SHA-256 initial hash state. -/
def sha256InitH : List Nat :=
  (List.range 8).map fun i => (sha256HPacked >>> (32 * (7 - i))) &&& 0xFFFFFFFF

/-- SHA-256 padding: append `0x80`, zeroes to 56 mod 64, then the bit length
as a 64-bit big-endian integer. -/
def sha256Pad (msg : List Nat) : List Nat :=
  let len := msg.length
  let padZeros := (64 - (len + 9) % 64) % 64
  msg ++ [0x80] ++ List.replicate padZeros 0 ++
    (List.range 8).map (fun i => ((len * 8) >>> (8 * (7 - i))) &&& 0xFF)

/-- Big-endian 32-bit word `i` of a 64-byte block. -/
def beWord (block : List Nat) (i : Nat) : Nat :=
  (block.getD (4 * i) 0 <<< 24) ||| (block.getD (4 * i + 1) 0 <<< 16) |||
    (block.getD (4 * i + 2) 0 <<< 8) ||| block.getD (4 * i + 3) 0

/-- The 64-word SHA-256 message schedule of one block. -/
def sha256Schedule (block : List Nat) : List Nat :=
  (List.range 48).foldl
    (fun w _ =>
      let n := w.length
      let w15 := w.getD (n - 15) 0
      let w2 := w.getD (n - 2) 0
      let s0 := (rotr32 w15 7) ^^^ (rotr32 w15 18) ^^^ (w15 >>> 3)
      let s1 := (rotr32 w2 17) ^^^ (rotr32 w2 19) ^^^ (w2 >>> 10)
      w ++ [mask32 (w.getD (n - 16) 0 + s0 + w.getD (n - 7) 0 + s1)])
    ((List.range 16).map (beWord block))

/-- The 8-word working state of the SHA-256 compression function. -/
structure Sha256State where
  a : Nat
  b : Nat
  c : Nat
  d : Nat
  e : Nat
  f : Nat
  g : Nat
  h : Nat
  deriving Repr, DecidableEq

/-- One SHA-256 round. -/
def sha256Round (w k : Nat) (s : Sha256State) : Sha256State :=
  let bigS1 := (rotr32 s.e 6) ^^^ (rotr32 s.e 11) ^^^ (rotr32 s.e 25)
  let ch := (s.e &&& s.f) ^^^ ((0xFFFFFFFF ^^^ s.e) &&& s.g)
  let temp1 := mask32 (s.h + bigS1 + ch + k + w)
  let bigS0 := (rotr32 s.a 2) ^^^ (rotr32 s.a 13) ^^^ (rotr32 s.a 22)
  let maj := (s.a &&& s.b) ^^^ (s.a &&& s.c) ^^^ (s.b &&& s.c)
  let temp2 := mask32 (bigS0 + maj)
  ⟨mask32 (temp1 + temp2), s.a, s.b, s.c, mask32 (s.d + temp1), s.e, s.f, s.g⟩

/-- The SHA-256 compression function over one 64-byte block. -/
def sha256Compress (hs : List Nat) (block : List Nat) : List Nat :=
  let w := sha256Schedule block
  let init : Sha256State :=
    ⟨hs.getD 0 0, hs.getD 1 0, hs.getD 2 0, hs.getD 3 0,
     hs.getD 4 0, hs.getD 5 0, hs.getD 6 0, hs.getD 7 0⟩
  let fin := (List.range 64).foldl
    (fun s i => sha256Round (w.getD i 0) (sha256K.getD i 0) s) init
  [mask32 (hs.getD 0 0 + fin.a), mask32 (hs.getD 1 0 + fin.b),
   mask32 (hs.getD 2 0 + fin.c), mask32 (hs.getD 3 0 + fin.d),
   mask32 (hs.getD 4 0 + fin.e), mask32 (hs.getD 5 0 + fin.f),
   mask32 (hs.getD 6 0 + fin.g), mask32 (hs.getD 7 0 + fin.h)]

/-- Split a byte list into 64-byte chunks (fuel-structural; the fuel always
suffices when it is at least the list length). -/
def chunksOf64 : Nat → List Nat → List (List Nat)
  | 0, _ => []
  | _, [] => []
  | fuel + 1, l => l.take 64 :: chunksOf64 fuel (l.drop 64)

/-- SHA-256 of a byte list, as 32 bytes. -/
def sha256 (msg : List Nat) : List Nat :=
  let padded := sha256Pad msg
  let hfin := (chunksOf64 padded.length padded).foldl sha256Compress sha256InitH
  (hfin.map (fun x =>
    [(x >>> 24) &&& 0xFF, (x >>> 16) &&& 0xFF, (x >>> 8) &&& 0xFF,
      x &&& 0xFF])).flatten

/-- `hashlib.sha256(s.encode("utf-8")).hexdigest()`. -/
def sha256Hex (s : String) : String := bytesToHex (sha256 (utf8 s))

/-- HMAC-SHA256 with a byte-list key and message (`hmac.new(key, msg,
hashlib.sha256).digest()`). -/
def hmacSha256 (key msg : List Nat) : List Nat :=
  let key1 := if 64 < key.length then sha256 key else key
  let key0 := key1 ++ List.replicate (64 - key1.length) 0
  sha256 ((key0.map (fun b => b ^^^ 0x5c)) ++
    sha256 ((key0.map (fun b => b ^^^ 0x36)) ++ msg))

/-- One CRC-32 bit step (reflected polynomial 0xEDB88320). -/
def crc32Bit (c : Nat) : Nat :=
  if c &&& 1 = 1 then (c >>> 1) ^^^ 0xEDB88320 else c >>> 1

/-- One CRC-32 byte step. -/
def crc32Byte (c b : Nat) : Nat :=
  crc32Bit (crc32Bit (crc32Bit (crc32Bit
    (crc32Bit (crc32Bit (crc32Bit (crc32Bit (c ^^^ (b &&& 0xFF)))))))))

/-- `binascii.crc32(data)`. -/
def crc32 (data : List Nat) : Nat :=
  (data.foldl crc32Byte 0xFFFFFFFF) ^^^ 0xFFFFFFFF

end PyJimeng

section hashVectors
open PyJimeng
set_option maxRecDepth 100000

-- known-answer tests validating the primitive implementations
example : sha256Hex "" =
    "e3b0c44298fc1c149afbf4c8996fb92427ae41e4649b934ca495991b7852b855" := by
  decide

example : sha256Hex "abc" =
    "ba7816bf8f01cfea414140de5dae2223b00361a396177a9cb410ff61f20015ad" := by
  decide

example : crc32 (utf8 "123456789") = 0xCBF43926 := by decide

example : hexPad8 (crc32 (utf8 "123456789")) = "cbf43926" := by decide

example : bytesToHex
    (hmacSha256 (utf8 "key")
      (utf8 "The quick brown fox jumps over the lazy dog")) =
    "f7bc83f430538424b13298e6aa6fb143ef4d59a14946175997479dbc2d1a3cd8" := by
  decide

end hashVectors


namespace PyJimeng

/-! ## Kernel-evaluable string operations

List-based equivalents of the Python string operations used by
`aws_signature.py` (upper/lower casing, strip, slicing, splitting, joining,
dictionary lookup, lexicographic comparison), so that concrete signatures
can be evaluated by the kernel.  All the inputs this repository passes are
ASCII where casing matters. -/

/-- ASCII uppercasing of one character (`str.upper`). -/
def charUpper (c : Char) : Char :=
  if 97 ≤ c.toNat ∧ c.toNat ≤ 122 then Char.ofNat (c.toNat - 32) else c

/-- ASCII lowercasing of one character (`str.lower`). -/
def charLower (c : Char) : Char :=
  if 65 ≤ c.toNat ∧ c.toNat ≤ 90 then Char.ofNat (c.toNat + 32) else c

/-- `s.upper()`. -/
def upperStr (s : String) : String := ⟨s.data.map charUpper⟩

/-- `s.lower()`. -/
def lowerStr (s : String) : String := ⟨s.data.map charLower⟩

/-- `s.strip()`. -/
def trimStr (s : String) : String :=
  ⟨((s.data.dropWhile Char.isWhitespace).reverse.dropWhile
    Char.isWhitespace).reverse⟩

/-- `s[:n]`. -/
def takeStr (n : Nat) (s : String) : String := ⟨s.data.take n⟩

/-- `sep.join(xs)` for a list of strings. -/
def joinSep (sep : String) : List String → String
  | [] => ""
  | [x] => x
  | x :: xs => x ++ sep ++ joinSep sep xs

/-- `s.split(c)` on a single-character separator. -/
def splitOnCharAux (c : Char) : List Char → List Char → List (List Char)
  | [], acc => [acc.reverse]
  | x :: xs, acc =>
    if x = c then acc.reverse :: splitOnCharAux c xs []
    else splitOnCharAux c xs (x :: acc)

/-- `s.split(c)` on a single-character separator. -/
def splitOnChar (c : Char) (s : String) : List String :=
  (splitOnCharAux c s.data []).map fun l => ⟨l⟩

/-- Dictionary lookup by exact key (`headers[k]` / `dict.get`). -/
def lookupStr (k : String) : List (String × String) → Option String
  | [] => none
  | (k', v) :: rest => if k' = k then some v else lookupStr k rest

/-- Strict code-point lexicographic comparison of character lists. -/
def charListLt : List Char → List Char → Bool
  | [], [] => false
  | [], _ :: _ => true
  | _ :: _, [] => false
  | a :: as, b :: bs =>
    if a.toNat < b.toNat then true
    else if b.toNat < a.toNat then false
    else charListLt as bs

/-- Strict lexicographic comparison of strings, as Python compares them. -/
def strLt (a b : String) : Bool := charListLt a.data b.data

/-- Stable insertion of `x` into a sorted list: `x` is placed before the
first element not strictly less than it (Python's stable `sorted`). -/
def insertBy {α : Type} (lt : α → α → Bool) (x : α) : List α → List α
  | [] => [x]
  | y :: ys => if lt y x then y :: insertBy lt x ys else x :: y :: ys

/-- Stable insertion sort with a strict comparison, as Python's `sorted`. -/
def sortBy {α : Type} (lt : α → α → Bool) : List α → List α
  | [] => []
  | x :: xs => insertBy lt x (sortBy lt xs)

/-- Strict lexicographic comparison of `(key, value)` pairs, as Python
compares tuples of strings. -/
def pairLt (p q : String × String) : Bool :=
  strLt p.1 q.1 || (decide (p.1 = q.1) && strLt p.2 q.2)

end PyJimeng

namespace PyJimeng

/-! ## `aws_signature.py` — `create_signature`

URLs are parsed by the same scheme/host/path/query split that `urlsplit`
performs on the absolute URLs this repository builds; the query strings
built by `images.py` contain no percent-encoding, so the percent-decoding
step of `parse_qsl` is the identity on them and is not modelled.  Header
dictionaries are association lists; `headers["x-amz-date"]` failing
(Python `KeyError`) is modelled by returning `none`. -/

/-- The part of the URL after the first `://` (the scheme is everything
before it in the URLs this repository builds). -/
def afterSchemeAux : List Char → Option (List Char)
  | ':' :: '/' :: '/' :: rest => some rest
  | _ :: xs => afterSchemeAux xs
  | [] => none

/-- The part of the URL after `scheme://`. -/
def afterScheme (url : String) : String :=
  match afterSchemeAux url.data with
  | some rest => ⟨rest⟩
  | none => url

/-- Split `host/path?query` into the host and the rest (from the first
`/`). -/
def hostRest (s : String) : String × String :=
  let sp := s.data.span (· ≠ '/')
  (⟨sp.1⟩, ⟨sp.2⟩)

/-- Split `path?query` at the first `?`. -/
def pathQuery (pq : String) : String × String :=
  match splitOnChar '?' pq with
  | [] => ("", "")
  | [p] => (p, "")
  | p :: rest => (p, joinSep "?" rest)

/-- `urlsplit(url).path`, defaulted to "/" (`aws_signature.py` line 25). -/
def pathnameOf (url : String) : String :=
  let p := (pathQuery (hostRest (afterScheme url)).2).1
  if p = "" then "/" else p

/-- `parse_qsl(query, keep_blank_values=True)` on the unencoded queries this
repository builds: split on `&`, drop empty fields, split each field at the
first `=` (a field with no `=` keeps a blank value). -/
def parseQsl (query : String) : List (String × String) :=
  (splitOnChar '&' query).filterMap fun field =>
    if field = "" then none
    else
      match splitOnChar '=' field with
      | [] => none
      | [n] => some (n, "")
      | n :: rest => some (n, joinSep "=" rest)

/-- `aws_signature.py` lines 26-27: the sorted, re-joined canonical query. -/
def canonicalQueryOf (url : String) : String :=
  let query := (pathQuery (hostRest (afterScheme url)).2).2
  joinSep "&" ((sortBy pairLt (parseQsl query)).map fun p => p.1 ++ "=" ++ p.2)

/-- Python truthiness of the optional session token (`if session_token:`). -/
def sessionTokenTruthy : Option String → Bool
  | none => false
  | some t => !(t == "")

/-- `aws_signature.py` lines 38-42: the payload hash actually used — the
digest of the payload only for POST with a non-empty payload, else the
digest of the empty byte string. -/
def payloadHashOf (method payload : String) : String :=
  if upperStr method ≠ "POST" ∨ payload = "" then sha256Hex ""
  else sha256Hex payload

/-- `aws_signature.py` lines 34-42: the headers included in the signature,
in insertion order: always `x-amz-date`; `x-amz-security-token` when the
session token is truthy; `x-amz-content-sha256` (set to the payload digest)
exactly for POST with a non-empty payload. -/
def headersToSign (method timestamp : String) (session_token : Option String)
    (payload : String) : List (String × String) :=
  [("x-amz-date", timestamp)] ++
    (if sessionTokenTruthy session_token then
      [("x-amz-security-token", session_token.getD "")]
    else []) ++
    (if upperStr method = "POST" ∧ payload ≠ "" then
      [("x-amz-content-sha256", sha256Hex payload)]
    else [])

/-- `aws_signature.py` line 44: lowercase, sorted, semicolon-joined header
names. -/
def signedHeadersOf (hts : List (String × String)) : String :=
  joinSep ";" (sortBy strLt (hts.map fun p => lowerStr p.1))

/-- `aws_signature.py` lines 45-48: the canonical headers block, sorted
case-insensitively by name. -/
def canonicalHeadersOf (hts : List (String × String)) : String :=
  String.join
    ((sortBy (fun p q => strLt (lowerStr p.1) (lowerStr q.1)) hts).map
      fun p => lowerStr p.1 ++ ":" ++ trimStr p.2 ++ "\n")

/-- `aws_signature.py` lines 50-59: the canonical request. -/
def canonicalRequestOf (method url timestamp : String)
    (session_token : Option String) (payload : String) : String :=
  let hts := headersToSign method timestamp session_token payload
  joinSep "\n"
    [upperStr method, pathnameOf url, canonicalQueryOf url,
      canonicalHeadersOf hts, signedHeadersOf hts,
      payloadHashOf method payload]

/-- `aws_signature.py` lines 61-69: the scope string. -/
def scopeOf (timestamp : String) : String :=
  takeStr 8 timestamp ++ "/cn-north-1/imagex/aws4_request"

/-- `aws_signature.py` lines 62-75: the final signature hex — the HMAC chain
over the string-to-sign. -/
def signatureHexOf (method url timestamp : String)
    (secret_access_key : String) (session_token : Option String)
    (payload : String) : String :=
  let string_to_sign := joinSep "\n"
    ["AWS4-HMAC-SHA256", timestamp, scopeOf timestamp,
      sha256Hex (canonicalRequestOf method url timestamp session_token payload)]
  let k_date := hmacSha256 (utf8 ("AWS4" ++ secret_access_key))
    (utf8 (takeStr 8 timestamp))
  let k_region := hmacSha256 k_date (utf8 "cn-north-1")
  let k_service := hmacSha256 k_region (utf8 "imagex")
  let k_signing := hmacSha256 k_service (utf8 "aws4_request")
  bytesToHex (hmacSha256 k_signing (utf8 string_to_sign))

/-- `aws_signature.py` lines 12-77: `create_signature`.  Returns `none` when
`headers` has no `x-amz-date` key (Python raises `KeyError` there). -/
def create_signature (method url : String) (headers : List (String × String))
    (access_key_id : String) (secret_access_key : String)
    (session_token : Option String := none) (payload : String := "") :
    Option String :=
  match lookupStr "x-amz-date" headers with
  | none => none
  | some timestamp =>
    some ("AWS4-HMAC-SHA256 Credential=" ++ access_key_id ++ "/" ++
      scopeOf timestamp ++ ", SignedHeaders=" ++
      signedHeadersOf (headersToSign method timestamp session_token payload) ++
      ", Signature=" ++
      signatureHexOf method url timestamp secret_access_key session_token
        payload)

end PyJimeng

section signatureVectors
open PyJimeng
set_option maxRecDepth 1000000
set_option maxHeartbeats 4000000

-- golden vectors for `create_signature` (reference values computed with an
-- independent implementation of the same scheme)
example :
    create_signature "GET"
      "https://imagex.bytedanceapi.com/?Action=ApplyImageUpload&Version=2018-08-01&ServiceId=svc123&FileSize=5&s=abc123xyz0"
      [("x-amz-date", "20260101T000000Z"), ("x-amz-security-token", "tok")]
      "AKID" "SECRET" (some "tok") "" =
    some ("AWS4-HMAC-SHA256 Credential=AKID/20260101/cn-north-1/imagex/aws4_request, SignedHeaders=x-amz-date;x-amz-security-token, Signature=c3ab2c5ba0f51205d3f0855f8b682864b07c420fa38d270aa697c119587ce2e4") := by
  decide

example :
    create_signature "POST"
      "https://imagex.bytedanceapi.com/?Action=CommitImageUpload&Version=2018-08-01&ServiceId=svc123"
      [("x-amz-date", "20260101T010203Z"), ("x-amz-security-token", "tok"),
        ("x-amz-content-sha256", "ignored-here")]
      "AKID" "SECRET" (some "tok") "\x7b\"SessionKey\": \"sess\"\x7d" =
    some ("AWS4-HMAC-SHA256 Credential=AKID/20260101/cn-north-1/imagex/aws4_request, SignedHeaders=x-amz-content-sha256;x-amz-date;x-amz-security-token, Signature=2cd49698cce3033e9e7f1219c5c2e95cef64b6d806895634eb0449d294123bd3") := by
  decide

end signatureVectors

namespace PyJimeng

/-! ## `images.py` — `_crc32`, `_upload_buffer` (C7, C8)

The three-phase upload is modelled as a function of the uploaded bytes and
an environment carrying the responses the network returns at each phase; the
result pairs the list of storage requests actually sent with the returned
storage URI or the raised error.  `raise_for_status()` raises exactly for
HTTP status ≥ 400; missing `StoreInfos`/`UploadHosts` entries (Python
`KeyError`/`IndexError`) are `JimengErr.keyOrIndexError`.  The error
messages interpolating the raw server payload (`f"申请上传失败: {...}"` etc.)
are modelled by their constant prefixes. -/

/-- Modelled from the spec: `constants.BASE_URL_IMAGEX_US`, the US
object-storage host (`constants.py` is not under `src/`; no claim depends on
its value, only on where it is used). -/
def BASE_URL_IMAGEX_US : String := "https://imagex16-us.bytedanceapi.com"

/-- Python truthiness of an optional string (`not x`). -/
def optTruthy : Option String → Bool
  | none => false
  | some s => !(s == "")

/-- `images.py` lines 62-65: `_crc32` — CRC-32 masked to 32 bits, formatted
`"%08x"`. -/
def _crc32 (data : List Nat) : String := hexPad8 (crc32 data &&& 0xFFFFFFFF)

/-- Minimal JSON string escaping (quote and backslash; session keys in this
protocol contain neither). -/
def jsonEscape (s : String) : String :=
  ⟨(s.data.map fun c =>
    if c = '"' ∨ c = '\\' then ['\\', c] else [c]).flatten⟩

/-- `json.dumps({"SessionKey": key})` with the default separators. -/
def jsonSessionKey (key : String) : String :=
  "\x7b\"SessionKey\": \"" ++ jsonEscape key ++ "\"\x7d"

/-- The parsed response of `/mweb/v1/get_upload_token` as read by
`images.py` lines 95-98 (`dict.get` on each field). -/
structure TokenInfo where
  access_key_id : Option String
  secret_access_key : Option String
  session_token : Option String
  service_id : Option String
  space_name : Option String
  deriving Repr, DecidableEq

/-- `service_id = token_info.get("service_id") or token_info.get("space_name")`. -/
def serviceIdOf (t : TokenInfo) : Option String :=
  if optTruthy t.service_id then t.service_id else t.space_name

/-- One entry of `UploadAddress["StoreInfos"]`. -/
structure StoreInfo where
  storeUri : String
  auth : String
  deriving Repr, DecidableEq

/-- `apply_data["Result"]["UploadAddress"]`. -/
structure UploadAddress where
  storeInfos : List StoreInfo
  uploadHosts : List String
  sessionKey : String
  deriving Repr, DecidableEq

/-- One entry of `commit_data["Result"]["Results"]`. -/
structure CommitResult where
  uriStatus : Option Int
  uri : String
  deriving Repr, DecidableEq

/-- The environment of one `_upload_buffer` run: timestamps, the random
nonce, and each phase's response. -/
structure UploadEnv where
  tokenInfo : TokenInfo
  applyTs : String
  nonce : String
  applyStatus : Nat
  uploadAddress : Option UploadAddress
  putStatus : Nat
  commitTs : String
  commitStatus : Nat
  commitResults : List CommitResult
  deriving Repr, DecidableEq

/-- A storage request sent by `_upload_buffer`, with the headers the claims
speak about. -/
inductive SentRequest where
  | applyReq (url : String) (authorization : String)
  | put (url : String) (authorization : String) (crcHeader : String)
      (body : List Nat)
  | commit (url : String) (authorization : String) (contentSha256 : String)
      (body : String)
  deriving Repr, DecidableEq

/-- `images.py` lines 86-205: `_upload_buffer`, returning the storage
requests sent and the storage URI or the raised error. -/
def _upload_buffer (buffer : List Nat) (isUs : Bool) (env : UploadEnv) :
    List SentRequest × Except JimengErr String :=
  let t := env.tokenInfo
  if ¬(optTruthy t.access_key_id = true) ∨
      ¬(optTruthy t.secret_access_key = true) ∨
      ¬(optTruthy t.session_token = true) then
    ([], .error (.api "获取上传令牌失败" none))
  else
    let access_key_id := t.access_key_id.getD ""
    let secret_access_key := t.secret_access_key.getD ""
    let session_token := t.session_token.getD ""
    let service_id := (serviceIdOf t).getD "None"
    let applyHost :=
      if isUs then BASE_URL_IMAGEX_US else "https://imagex.bytedanceapi.com"
    let params := "?Action=ApplyImageUpload&Version=2018-08-01&ServiceId=" ++
      service_id ++ "&FileSize=" ++ Nat.repr buffer.length ++ "&s=" ++
      env.nonce ++ (if isUs then "&device_platform=web" else "")
    let apply_url := applyHost ++ "/" ++ params
    let authorization := (create_signature "GET" apply_url
      [("x-amz-date", env.applyTs), ("x-amz-security-token", session_token)]
      access_key_id secret_access_key (some session_token) "").getD ""
    let applySent := SentRequest.applyReq apply_url authorization
    if 400 ≤ env.applyStatus then
      ([applySent], .error (.httpStatus env.applyStatus))
    else
      match env.uploadAddress with
      | none => ([applySent], .error (.api "申请上传失败: " none))
      | some ua =>
        match ua.storeInfos.head?, ua.uploadHosts.head? with
        | some store_info, some upload_host =>
          let upload_url :=
            "https://" ++ upload_host ++ "/upload/v1/" ++ store_info.storeUri
          let crc := _crc32 buffer
          let putSent := SentRequest.put upload_url store_info.auth crc buffer
          if 400 ≤ env.putStatus then
            ([applySent, putSent], .error (.httpStatus env.putStatus))
          else
            let commit_url := applyHost ++
              "/?Action=CommitImageUpload&Version=2018-08-01&ServiceId=" ++
              service_id
            let commit_payload := jsonSessionKey ua.sessionKey
            let payload_hash := sha256Hex commit_payload
            let commit_authorization := (create_signature "POST" commit_url
              [("x-amz-date", env.commitTs),
                ("x-amz-security-token", session_token),
                ("x-amz-content-sha256", payload_hash)]
              access_key_id secret_access_key (some session_token)
              commit_payload).getD ""
            let commitSent := SentRequest.commit commit_url
              commit_authorization payload_hash commit_payload
            if 400 ≤ env.commitStatus then
              ([applySent, putSent, commitSent],
                .error (.httpStatus env.commitStatus))
            else
              match env.commitResults with
              | [] => ([applySent, putSent, commitSent],
                  .error (.api "提交上传失败: " none))
              | result :: _ =>
                if result.uriStatus ≠ some 2000 then
                  ([applySent, putSent, commitSent],
                    .error (.api "上传状态异常: " none))
                else
                  ([applySent, putSent, commitSent], .ok result.uri)
        | _, _ => ([applySent], .error .keyOrIndexError)

end PyJimeng

namespace PyJimeng

/-- Characters allowed in lowercase hexadecimal output. -/
def isLowerHexChar (c : Char) : Bool :=
  c.isDigit || (97 ≤ c.toNat && c.toNat ≤ 102)

theorem hexChar_isLowerHex (n : Nat) (h : n < 16) :
    isLowerHexChar (hexChar n) = true := by
  interval_cases n <;> decide

theorem hexDigitsAux_length_le :
    ∀ (fuel k n : Nat), 0 < k → n < 16 ^ k →
      (hexDigitsAux fuel n).length ≤ k := by
  intro fuel
  induction fuel with
  | zero => intro k n hk hn; simp [hexDigitsAux]
  | succ fuel ih =>
    intro k n hk hn
    rw [hexDigitsAux]
    split
    · simpa using hk
    · next hge =>
      have hk2 : 2 ≤ k := by
        by_contra hlt
        have hk1 : k = 1 := by omega
        subst hk1
        simp [pow_one] at hn
        omega
      have hdiv : n / 16 < 16 ^ (k - 1) := by
        rw [Nat.div_lt_iff_lt_mul (by norm_num : (0:Nat) < 16)]
        calc n < 16 ^ k := hn
          _ = 16 ^ (k - 1) * 16 := by
              rw [← pow_succ]
              congr 1
              omega
      have := ih (k - 1) (n / 16) (by omega) hdiv
      simp only [List.length_append, List.length_cons, List.length_nil]
      omega

theorem hexDigitsAux_all_lower :
    ∀ (fuel n : Nat), (hexDigitsAux fuel n).all isLowerHexChar = true := by
  intro fuel
  induction fuel with
  | zero => intro n; rfl
  | succ fuel ih =>
    intro n
    rw [hexDigitsAux]
    split
    · next h => simpa using hexChar_isLowerHex n h
    · next h =>
      rw [List.all_append]
      simp only [Bool.and_eq_true]
      have hmod : n % 16 < 16 := Nat.mod_lt _ (by norm_num)
      exact ⟨ih (n / 16), by simpa using hexChar_isLowerHex (n % 16) hmod⟩

theorem hexPad8_length (n : Nat) (h : n < 16 ^ 8) : (hexPad8 n).length = 8 := by
  have hle : (hexDigits n).length ≤ 8 :=
    hexDigitsAux_length_le (n + 1) 8 n (by norm_num) h
  show (List.replicate (8 - (hexDigits n).length) '0' ++ hexDigits n).length = 8
  rw [List.length_append, List.length_replicate]
  omega

theorem hexPad8_all_lower (n : Nat) :
    (hexPad8 n).data.all isLowerHexChar = true := by
  show (List.replicate (8 - (hexDigits n).length) '0' ++ hexDigits n).all
    isLowerHexChar = true
  rw [List.all_append, Bool.and_eq_true]
  constructor
  · rw [List.all_eq_true]
    intro x hx
    rw [List.eq_of_mem_replicate hx]
    decide
  · exact hexDigitsAux_all_lower (n + 1) n

/-- String length distributes over append. -/
theorem strLength_append (a b : String) :
    (a ++ b).length = a.length + b.length := by
  cases a with
  | mk da =>
    cases b with
    | mk db => simp [String.length, String.append]

/-- The JSON commit payload is never the empty string. -/
theorem jsonSessionKey_ne_empty (k : String) : jsonSessionKey k ≠ "" := by
  intro h
  have hlen := congrArg String.length h
  rw [jsonSessionKey, strLength_append, strLength_append] at hlen
  have h1 : ("\x7b\"SessionKey\": \"").length = 16 := rfl
  have h2 : ("\"\x7d").length = 2 := rfl
  have h0 : ("" : String).length = 0 := rfl
  omega

/-- For `POST` with a non-empty payload, the signer's payload hash is the
digest of the payload itself. -/
theorem payloadHashOf_post (payload : String) (h : payload ≠ "") :
    payloadHashOf "POST" payload = sha256Hex payload := by
  rw [payloadHashOf, if_neg]
  rintro (hx | hx)
  · exact hx rfl
  · exact h hx

/-- The signer's payload hash of a commit payload is its own digest. -/
theorem payloadHashOf_post_json (k : String) :
    payloadHashOf "POST" (jsonSessionKey k) = sha256Hex (jsonSessionKey k) :=
  payloadHashOf_post _ (jsonSessionKey_ne_empty k)

end PyJimeng

namespace PyJimeng

/-- C7: on every `_upload_buffer` run, every binary PUT actually sent
carries a `Content-CRC32` header equal to `_crc32` of the uploaded bytes
`b` (the CRC-32 of `b`, masked to 32 bits and formatted as 8-digit lowercase
hex) and a body equal to `b` itself; and every commit call actually sent
carries an `x-amz-content-sha256` header equal to the SHA-256 hex digest of
the exact JSON payload string transmitted as that call's body, with the
signer's payload hash for that POST equal to the same digest (the header is
signed). -/
theorem upload_crc_and_commit_hash (b : List Nat) (isUs : Bool)
    (env : UploadEnv) :
    ((_upload_buffer b isUs env).1.all fun r =>
      match r with
      | .applyReq _ _ => true
      | .put _ _ crcHeader body => crcHeader == _crc32 b && body == b
      | .commit _ _ contentSha256 body =>
          contentSha256 == sha256Hex body &&
            payloadHashOf "POST" body == contentSha256) = true ∧
    _crc32 b = hexPad8 (crc32 b &&& 0xFFFFFFFF) ∧
    (hexPad8 (crc32 b &&& 0xFFFFFFFF)).length = 8 ∧
    (hexPad8 (crc32 b &&& 0xFFFFFFFF)).data.all isLowerHexChar = true := by
  have hmask : crc32 b &&& 0xFFFFFFFF < 16 ^ 8 := by
    have := Nat.and_le_right (n := crc32 b) (m := 0xFFFFFFFF)
    omega
  refine ⟨?_, rfl, hexPad8_length _ hmask, hexPad8_all_lower _⟩
  simp only [_upload_buffer]
  split
  · rfl
  · split
    · rfl
    · split
      · rfl
      · split
        · split
          · simp [List.all_cons, List.all_nil]
          · split
            · simp [List.all_cons, List.all_nil, payloadHashOf_post_json]
            · split
              · simp [List.all_cons, List.all_nil, payloadHashOf_post_json]
              · split
                · simp [List.all_cons, List.all_nil, payloadHashOf_post_json]
                · simp [List.all_cons, List.all_nil, payloadHashOf_post_json]
        · rfl

end PyJimeng

namespace PyJimeng

/-- C8 (amended): an upload error is raised, and no storage URI produced,
when the ticket is missing any of the three credential fields (nothing is
sent in that case), when the binary PUT answers with HTTP status ≥ 400
(`raise_for_status` raises exactly for 4xx/5xx, not for every non-2xx
status), and when the commit result's per-file status differs from the
success sentinel 2000. -/
theorem upload_error_cases (b : List Nat) (isUs : Bool) (env : UploadEnv) :
    ((¬(optTruthy env.tokenInfo.access_key_id = true) ∨
      ¬(optTruthy env.tokenInfo.secret_access_key = true) ∨
      ¬(optTruthy env.tokenInfo.session_token = true)) →
      _upload_buffer b isUs env =
        ([], .error (.api "获取上传令牌失败" none))) ∧
    (∀ (ua : UploadAddress) (si : StoreInfo) (host : String),
      optTruthy env.tokenInfo.access_key_id = true →
      optTruthy env.tokenInfo.secret_access_key = true →
      optTruthy env.tokenInfo.session_token = true →
      env.applyStatus < 400 →
      env.uploadAddress = some ua →
      ua.storeInfos.head? = some si →
      ua.uploadHosts.head? = some host →
      400 ≤ env.putStatus →
      (_upload_buffer b isUs env).2 = .error (.httpStatus env.putStatus)) ∧
    (∀ (ua : UploadAddress) (si : StoreInfo) (host : String)
        (r : CommitResult) (rest : List CommitResult),
      optTruthy env.tokenInfo.access_key_id = true →
      optTruthy env.tokenInfo.secret_access_key = true →
      optTruthy env.tokenInfo.session_token = true →
      env.applyStatus < 400 →
      env.uploadAddress = some ua →
      ua.storeInfos.head? = some si →
      ua.uploadHosts.head? = some host →
      env.putStatus < 400 →
      env.commitStatus < 400 →
      env.commitResults = r :: rest →
      r.uriStatus ≠ some 2000 →
      (_upload_buffer b isUs env).2 = .error (.api "上传状态异常: " none)) := by
  refine ⟨?_, ?_, ?_⟩
  · intro hc
    simp only [_upload_buffer]
    rw [if_pos hc]
  · intro ua si host h1 h2 h3 happly hua hsi hhost hput
    simp [_upload_buffer, h1, h2, h3, hua, hsi, hhost, not_le.mpr happly,
      hput]
  · intro ua si host r rest h1 h2 h3 happly hua hsi hhost hput hcommit hres hr
    simp [_upload_buffer, h1, h2, h3, hua, hsi, hhost, not_le.mpr happly,
      not_le.mpr hput, not_le.mpr hcommit, hres, hr]

/-- A run whose binary PUT answers with HTTP 301 (non-2xx but below 400) and
whose other phases succeed. -/
def env301 : UploadEnv :=
  { tokenInfo := ⟨some "ak", some "sk", some "st", some "svc", none⟩
    applyTs := "20260101T000000Z"
    nonce := "nonce12345"
    applyStatus := 200
    uploadAddress := some ⟨[⟨"obj-uri", "store-auth"⟩], ["host0"], "sess0"⟩
    putStatus := 301
    commitTs := "20260101T000001Z"
    commitStatus := 200
    commitResults := [⟨some 2000, "stored-uri"⟩] }

/-- C8 (counterexample): the claim "the binary PUT returning a non-2xx HTTP
status raises an upload error" is false as stated: with the PUT answering
HTTP 301 (non-2xx), `upload_resp.raise_for_status()` does not raise (it
raises only for status ≥ 400), the commit proceeds, and the upload returns
a storage URI with no error. -/
theorem upload_non2xx_counterexample :
    env301.putStatus = 301 ∧
    (_upload_buffer [1, 2, 3] false env301).2 = .ok "stored-uri" := by
  exact ⟨rfl, rfl⟩

/-- A run whose ticket is missing the secret credential field. -/
def envNoCreds : UploadEnv :=
  { tokenInfo := ⟨some "ak", none, some "st", some "svc", none⟩
    applyTs := "20260101T000000Z"
    nonce := "nonce12345"
    applyStatus := 200
    uploadAddress := none
    putStatus := 200
    commitTs := "20260101T000001Z"
    commitStatus := 200
    commitResults := [] }

/-- A run whose commit reports per-file status 2148 instead of the success
sentinel 2000. -/
def env2148 : UploadEnv :=
  { tokenInfo := ⟨some "ak", some "sk", some "st", some "svc", none⟩
    applyTs := "20260101T000000Z"
    nonce := "nonce12345"
    applyStatus := 200
    uploadAddress := some ⟨[⟨"obj-uri", "store-auth"⟩], ["host0"], "sess0"⟩
    putStatus := 200
    commitTs := "20260101T000001Z"
    commitStatus := 200
    commitResults := [⟨some 2148, "stored-uri"⟩] }

/-- C8 witness: a missing-credential ticket raises the upload-token error
with nothing sent, and a commit status-sentinel mismatch (2148) raises the
upload-status error. -/
theorem upload_error_cases_witness :
    _upload_buffer [7] false envNoCreds =
      ([], .error (.api "获取上传令牌失败" none)) ∧
    (_upload_buffer [7] false env2148).2 =
      .error (.api "上传状态异常: " none) := by
  constructor
  · exact (upload_error_cases [7] false envNoCreds).1
      (Or.inr (Or.inl (by decide)))
  · exact (upload_error_cases [7] false env2148).2.2
      ⟨[⟨"obj-uri", "store-auth"⟩], ["host0"], "sess0"⟩
      ⟨"obj-uri", "store-auth"⟩ "host0" ⟨some 2148, "stored-uri"⟩ []
      (by decide) (by decide) (by decide) (by decide) rfl rfl rfl
      (by decide) (by decide) rfl (by decide)

end PyJimeng

namespace PyJimeng

/-- Helper: the lookup of `x-amz-content-sha256` among the signed headers is
`some` (with the payload digest) exactly for POST with a non-empty payload. -/
theorem lookup_contentSha (method timestamp payload : String)
    (session_token : Option String) :
    lookupStr "x-amz-content-sha256"
        (headersToSign method timestamp session_token payload) =
      (if upperStr method = "POST" ∧ payload ≠ "" then
        some (sha256Hex payload)
      else none) := by
  have k1 : ¬(("x-amz-date" : String) = "x-amz-content-sha256") := by decide
  have k2 : ¬(("x-amz-security-token" : String) = "x-amz-content-sha256") := by
    decide
  have k3 : (("x-amz-content-sha256" : String) = "x-amz-content-sha256") := rfl
  by_cases hc : upperStr method = "POST" ∧ payload ≠ "" <;>
    cases hst : sessionTokenTruthy session_token <;>
      simp [headersToSign, hc, hst, lookupStr, k1, k2, k3]

/-- C5: the canonical request's payload-hash component is the SHA-256 hex
digest of the payload, and `x-amz-content-sha256` (bound to that digest) is
among the signed headers, if and only if the method is POST and the payload
is non-empty; in every other case the payload hash used is the digest of the
empty byte string and `x-amz-content-sha256` is not signed. -/
theorem signer_content_header_iff (method payload timestamp url : String)
    (session_token : Option String) :
    ((upperStr method = "POST" ∧ payload ≠ "") ↔
      (payloadHashOf method payload = sha256Hex payload ∧
        lookupStr "x-amz-content-sha256"
          (headersToSign method timestamp session_token payload) =
            some (sha256Hex payload))) ∧
    (¬(upperStr method = "POST" ∧ payload ≠ "") →
      payloadHashOf method payload = sha256Hex "" ∧
        lookupStr "x-amz-content-sha256"
          (headersToSign method timestamp session_token payload) = none) ∧
    canonicalRequestOf method url timestamp session_token payload =
      joinSep "\n"
        [upperStr method, pathnameOf url, canonicalQueryOf url,
          canonicalHeadersOf
            (headersToSign method timestamp session_token payload),
          signedHeadersOf
            (headersToSign method timestamp session_token payload),
          payloadHashOf method payload] := by
  refine ⟨⟨?_, ?_⟩, ?_, rfl⟩
  · intro hc
    constructor
    · rw [payloadHashOf, if_neg]
      rintro (hx | hx)
      · exact hx hc.1
      · exact hc.2 hx
    · rw [lookup_contentSha, if_pos hc]
  · rintro ⟨hhash, hlookup⟩
    by_contra hnc
    rw [lookup_contentSha, if_neg hnc] at hlookup
    cases hlookup
  · intro hnc
    constructor
    · rw [payloadHashOf, if_pos]
      by_cases hm : upperStr method = "POST"
      · right
        by_contra hp
        exact hnc ⟨hm, hp⟩
      · left
        exact hm
    · rw [lookup_contentSha, if_neg hnc]

/-- C5 witness: for a concrete POST with non-empty payload the header is
signed and bound to the payload digest; the hypotheses of the iff hold. -/
theorem signer_content_header_iff_witness :
    (upperStr "POST" = "POST" ∧ ("x" : String) ≠ "") ∧
    payloadHashOf "POST" "x" = sha256Hex "x" ∧
    lookupStr "x-amz-content-sha256"
        (headersToSign "POST" "20260101T000000Z" (some "tok") "x") =
      some (sha256Hex "x") := by
  have h := (signer_content_header_iff "POST" "x" "20260101T000000Z"
    "https://h/p" (some "tok")).1
  have hc : upperStr "POST" = "POST" ∧ ("x" : String) ≠ "" := by
    constructor
    · decide
    · decide
  exact ⟨hc, h.mp hc⟩

/-- Helper: every character of a byte-list hex rendering is a lowercase hex
digit. -/
theorem bytesToHex_all_lower (bs : List Nat) :
    (bytesToHex bs).data.all isLowerHexChar = true := by
  have hx : ∀ m : Nat, m &&& 15 < 16 := fun m =>
    lt_of_le_of_lt Nat.and_le_right (by norm_num)
  show ((bs.map fun b =>
    [hexChar ((b >>> 4) &&& 0xF), hexChar (b &&& 0xF)]).flatten.all
      isLowerHexChar) = true
  induction bs with
  | nil => rfl
  | cons b rest ih =>
    simp only [List.map_cons, List.flatten_cons, List.all_append,
      Bool.and_eq_true]
    refine ⟨?_, ih⟩
    simp [hexChar_isLowerHex _ (hx ((b >>> 4))), hexChar_isLowerHex _ (hx b)]

/-- C6: `create_signature` is deterministic — two invocations with identical
method, URL, headers (hence the same `x-amz-date` timestamp), access key,
secret, session token and payload return equal signature strings — and the
output has the form `AWS4-HMAC-SHA256 Credential=<access_key>/<date>/
cn-north-1/imagex/aws4_request, SignedHeaders=<signed_headers>,
Signature=<hex>`, where `<date>` is the first 8 characters of the timestamp
and `<hex>` consists of lowercase hexadecimal digits. -/
theorem create_signature_deterministic_format
    (m u : String) (hs : List (String × String)) (ak sk : String)
    (st : Option String) (p : String)
    (m' u' : String) (hs' : List (String × String)) (ak' sk' : String)
    (st' : Option String) (p' : String)
    (heq : (m, u, hs, ak, sk, st, p) = (m', u', hs', ak', sk', st', p')) :
    create_signature m u hs ak sk st p =
      create_signature m' u' hs' ak' sk' st' p' ∧
    (∀ ts, lookupStr "x-amz-date" hs = some ts →
      create_signature m u hs ak sk st p =
        some ("AWS4-HMAC-SHA256 Credential=" ++ ak ++ "/" ++ scopeOf ts ++
          ", SignedHeaders=" ++ signedHeadersOf (headersToSign m ts st p) ++
          ", Signature=" ++ signatureHexOf m u ts sk st p) ∧
      scopeOf ts = takeStr 8 ts ++ "/cn-north-1/imagex/aws4_request" ∧
      (signatureHexOf m u ts sk st p).data.all isLowerHexChar = true) := by
  cases heq
  refine ⟨rfl, ?_⟩
  intro ts hts
  refine ⟨?_, rfl, ?_⟩
  · rw [create_signature, hts]
  · show (bytesToHex _).data.all isLowerHexChar = true
    exact bytesToHex_all_lower _

/-- C6 witness: a concrete invocation — the two (syntactically identical)
calls agree and the output matches the documented shape. -/
theorem create_signature_deterministic_format_witness :
    create_signature "GET" "https://h/p?a=1"
        [("x-amz-date", "20260101T000000Z")] "AK" "SK" none "" =
      create_signature "GET" "https://h/p?a=1"
        [("x-amz-date", "20260101T000000Z")] "AK" "SK" none "" ∧
    create_signature "GET" "https://h/p?a=1"
        [("x-amz-date", "20260101T000000Z")] "AK" "SK" none "" =
      some ("AWS4-HMAC-SHA256 Credential=" ++ "AK" ++ "/" ++
        scopeOf "20260101T000000Z" ++ ", SignedHeaders=" ++
        signedHeadersOf (headersToSign "GET" "20260101T000000Z" none "") ++
        ", Signature=" ++
        signatureHexOf "GET" "https://h/p?a=1" "20260101T000000Z" "SK" none
          "") := by
  have h := create_signature_deterministic_format "GET" "https://h/p?a=1"
    [("x-amz-date", "20260101T000000Z")] "AK" "SK" none "" "GET"
    "https://h/p?a=1" [("x-amz-date", "20260101T000000Z")] "AK" "SK" none ""
    rfl
  exact ⟨h.1, (h.2 "20260101T000000Z" rfl).1⟩

end PyJimeng

namespace PyJimeng

/-! ## `images.py` — `generate_image_composition` (C10)

The operation is modelled as a function of the image list and an environment
carrying the outcome of each effectful phase, in the source's order: the
input-count guards (lines 399-402), `_map_model` (may raise), rudimentary
`_get_resolution` (may raise), the per-image uploads (a list comprehension
that aborts at the first failure), the submission request, the history-id
check, and the poll/extract phase.  The returned transcript counts the
uploads started and whether the submission was sent, so "no network
activity" is observable. -/

/-- The configuration `_get_resolution` returns. -/
structure ResCfg where
  width : Nat
  height : Nat
  ratio : ℚ
  resolution_type : String
  deriving Repr, DecidableEq

/-- The environment of one `generate_image_composition` run. -/
structure CompEnv where
  mapModelResult : Except JimengErr String
  resolutionResult : Except JimengErr ResCfg
  uploadResults : List (Except JimengErr String)
  submitHistoryId : Except JimengErr (Option String)
  pollResultUrls : Except JimengErr (List String)
  deriving Repr

/-- Run the upload list comprehension: uploads run sequentially and the
first failure aborts the comprehension; returns how many uploads were
started and the collected URIs or the first error. -/
def runUploads : List (Except JimengErr String) →
    Nat × Except JimengErr (List String)
  | [] => (0, .ok [])
  | .error e :: _ => (1, .error e)
  | .ok u :: rest =>
    let (n, r) := runUploads rest
    (n + 1,
      match r with
      | .ok us => .ok (u :: us)
      | .error e => .error e)

/-- `images.py` lines 404-537: everything after the input-count guards.  The
first component of the result is `(uploads started, submission sent)`. -/
def compositionAfterValidation {α : Type} (images : List α) (env : CompEnv) :
    (Nat × Bool) × Except JimengErr (List String) :=
  match env.mapModelResult with
  | .error e => ((0, false), .error e)
  | .ok _model =>
    match env.resolutionResult with
    | .error e => ((0, false), .error e)
    | .ok _res =>
      match runUploads ((List.range images.length).map fun i =>
          env.uploadResults.getD i (.error .keyOrIndexError)) with
      | (n, .error e) => ((n, false), .error e)
      | (n, .ok _uris) =>
        match env.submitHistoryId with
        | .error e => ((n, true), .error e)
        | .ok none => ((n, true), .error (.api "记录ID不存在" none))
        | .ok (some _hid) =>
          match env.pollResultUrls with
          | .error e => ((n, true), .error e)
          | .ok urls =>
            if urls.isEmpty then
              ((n, true), .error (.api "图生图未生成图片" none))
            else ((n, true), .ok urls)

/-- `images.py` lines 388-537: `generate_image_composition` — the
input-count guards run before anything else. -/
def generate_image_composition {α : Type} (images : List α) (env : CompEnv) :
    (Nat × Bool) × Except JimengErr (List String) :=
  if images.isEmpty then
    ((0, false), .error (.api "至少需要提供1张图片" none))
  else if 10 < images.length then
    ((0, false), .error (.api "最多支持10张图片" none))
  else compositionAfterValidation images env

/-- C10: an empty image list raises the "at least 1 image" error and a list
of more than 10 images raises the "at most 10 images" error, in both cases
before any upload is started or submission sent (the transcript is
`(0, false)`); for 1 to 10 images the guards pass and the composition
proceeds to the post-validation pipeline. -/
theorem composition_guard_bounds {α : Type} (images : List α)
    (env : CompEnv) :
    (images = [] → generate_image_composition images env =
      ((0, false), .error (.api "至少需要提供1张图片" none))) ∧
    (images ≠ [] → 10 < images.length →
      generate_image_composition images env =
        ((0, false), .error (.api "最多支持10张图片" none))) ∧
    (1 ≤ images.length → images.length ≤ 10 →
      generate_image_composition images env =
        compositionAfterValidation images env) := by
  refine ⟨?_, ?_, ?_⟩
  · intro h
    subst h
    rfl
  · intro hne hlen
    rw [generate_image_composition,
      if_neg (by simpa [List.isEmpty_iff] using hne), if_pos hlen]
  · intro h1 h10
    have hne : images ≠ [] := by
      intro hx
      rw [hx] at h1
      simp at h1
    rw [generate_image_composition,
      if_neg (by simpa [List.isEmpty_iff] using hne), if_neg (by omega)]

end PyJimeng

namespace PyJimeng

/-- A fully-successful composition environment with two staged uploads. -/
def compEnvOk : CompEnv :=
  { mapModelResult := .ok "high_aes_general_v40"
    resolutionResult := .ok ⟨2048, 2048, 1, "2k"⟩
    uploadResults := [.ok "uri0", .ok "uri1"]
    submitHistoryId := .ok (some "hist0")
    pollResultUrls := .ok ["https://r/0"] }

/-- C10 witness: the empty list and an 11-image list are rejected with the
transcript `(0, false)` (nothing sent), while a 2-image list passes the
guards and proceeds. -/
theorem composition_guard_bounds_witness :
    generate_image_composition ([] : List Unit) compEnvOk =
      ((0, false), .error (.api "至少需要提供1张图片" none)) ∧
    generate_image_composition
        [(), (), (), (), (), (), (), (), (), (), ()] compEnvOk =
      ((0, false), .error (.api "最多支持10张图片" none)) ∧
    generate_image_composition [(), ()] compEnvOk =
      compositionAfterValidation [(), ()] compEnvOk := by
  refine ⟨(composition_guard_bounds ([] : List Unit) compEnvOk).1 rfl,
    (composition_guard_bounds _ compEnvOk).2.1 (by decide) (by decide),
    (composition_guard_bounds [(), ()] compEnvOk).2.2 (by decide)
      (by decide)⟩

end PyJimeng
